import Mathlib

/-!
Shallow embedding of the per-symbol intraday trading engine of this repository:

* `core_logic/LiveStrategyEngine.py` — the live, tick-driven engine
  (`update_candle`, `process_strategy`), and
* `bin/base_strategy.py` — the batch replay driver (`compute_intraday_strategy`).

Prices, volumes and indicator values are exact rationals, represented by the
unnormalized fraction type `Frac` (an integer numerator and a positive integer
denominator; every operation below keeps denominators positive as long as no
division by a zero value occurs, which matches the fact that the Python source
would produce `inf`/`nan` there).  Timestamps are minutes (IST) since a fixed
epoch: `date = ts / 1440` and the `HHMM` time-of-day used by the source is
`(ts % 1440 / 60) * 100 + ts % 60`.  Database persistence and logging are side
effects with no influence on the decision path and are omitted.
-/

structure Frac where
  n : ℤ
  d : ℤ
deriving DecidableEq, Repr

instance (m : ℕ) : OfNat Frac m := ⟨⟨(m : ℤ), 1⟩⟩

instance : NatCast Frac := ⟨fun k => ⟨(k : ℤ), 1⟩⟩

def Frac.add (a b : Frac) : Frac := ⟨a.n * b.d + b.n * a.d, a.d * b.d⟩

def Frac.sub (a b : Frac) : Frac := ⟨a.n * b.d - b.n * a.d, a.d * b.d⟩

def Frac.mul (a b : Frac) : Frac := ⟨a.n * b.n, a.d * b.d⟩

def Frac.div (a b : Frac) : Frac :=
  if 0 ≤ b.n then ⟨a.n * b.d, a.d * b.n⟩ else ⟨-(a.n * b.d), -(a.d * b.n)⟩

def Frac.neg (a : Frac) : Frac := ⟨-a.n, a.d⟩

def Frac.lt (a b : Frac) : Prop := a.n * b.d < b.n * a.d

def Frac.le (a b : Frac) : Prop := a.n * b.d ≤ b.n * a.d

/-- Semantic (value) equality of fractions, independent of the representative. -/
def Frac.eqv (a b : Frac) : Prop := a.n * b.d = b.n * a.d

instance : Add Frac := ⟨Frac.add⟩

instance : Sub Frac := ⟨Frac.sub⟩

instance : Mul Frac := ⟨Frac.mul⟩

instance : Div Frac := ⟨Frac.div⟩

instance : Neg Frac := ⟨Frac.neg⟩

instance : LT Frac := ⟨Frac.lt⟩

instance : LE Frac := ⟨Frac.le⟩

instance (a b : Frac) : Decidable (a < b) := Int.decLt (a.n * b.d) (b.n * a.d)

instance (a b : Frac) : Decidable (a ≤ b) := Int.decLe (a.n * b.d) (b.n * a.d)

instance (a b : Frac) : Decidable (Frac.eqv a b) := decEq (a.n * b.d) (b.n * a.d)

/-- Python `min(a, b)`: returns `a` on ties. -/
def fmin (a b : Frac) : Frac := if a ≤ b then a else b

/-- Python `max(a, b)`: returns `a` on ties. -/
def fmax (a b : Frac) : Frac := if b ≤ a then a else b

/-- Python `abs`. -/
def fabs (a : Frac) : Frac := if a.n < 0 then ⟨-a.n, a.d⟩ else a

/-- One OHLCV candle row of the engine dataframe (`timestamp` is `ts`, in
minutes; the symbol column is implicit, one engine per symbol). -/
structure Candle where
  ts : ℕ
  opn : Frac
  high : Frac
  low : Frac
  close : Frac
  volume : Frac
deriving DecidableEq, Repr

def cd0 : Candle := ⟨0, 0, 0, 0, 0, 0⟩

/-- `timestamp.date()` as an ordinal day number. -/
def dateOf (c : Candle) : ℕ := c.ts / 1440

/-- `timestamp.hour * 100 + timestamp.minute`. -/
def curTimeOf (c : Candle) : ℕ := (c.ts % 1440) / 60 * 100 + c.ts % 60

/-- Accumulator step for pandas `ewm(span).mean()` with the default
`adjust=True`: keeps the weighted numerator and the weight sum. -/
def emaAdjAux (q : Frac) : Frac → Frac → List Frac → List Frac
  | _, _, [] => []
  | num, den, x :: xs =>
      let n := x + q * num
      let d := (1 : Frac) + q * den
      (n / d) :: emaAdjAux q n d xs

/-- pandas `series.ewm(span=span).mean()` (with `adjust=True`, the default),
as used by `LiveStrategyEngine.process_strategy` for `EMA200`. -/
def emaAdjusted (span : ℕ) (xs : List Frac) : List Frac :=
  emaAdjAux ((1 : Frac) - (2 : Frac) / ((span : Frac) + 1)) 0 0 xs

def emaRecAux (a : Frac) : Frac → List Frac → List Frac
  | _, [] => []
  | y, x :: xs =>
      let y2 := ((1 : Frac) - a) * y + a * x
      y2 :: emaRecAux a y2 xs

/-- pandas `series.ewm(span=span, adjust=False).mean()`, as used by
`base_strategy.ema`. -/
def emaRec (span : ℕ) : List Frac → List Frac
  | [] => []
  | x :: xs => x :: emaRecAux ((2 : Frac) / ((span : Frac) + 1)) x xs

def vwapAux : Frac → Frac → List Candle → List Frac
  | _, _, [] => []
  | sp, sv, c :: cs =>
      let sp2 := sp + c.close * c.volume
      let sv2 := sv + c.volume
      (sp2 / sv2) :: vwapAux sp2 sv2 cs

/-- `(close * volume).cumsum() / volume.cumsum()`, the VWAP column of both
drivers (cumulative over the whole retained window, not reset per day). -/
def vwapList (df : List Candle) : List Frac := vwapAux 0 0 df

/-- pandas `series.rolling(n).mean()`: `none` (NaN) for the first `n - 1`
rows. -/
def rollMean (nw : ℕ) (xs : List Frac) : List (Option Frac) :=
  (List.range xs.length).map fun i =>
    if nw ≤ i + 1 then
      some ((((xs.take (i + 1)).drop (i + 1 - nw)).foldl Frac.add 0) / (nw : Frac))
    else none

inductive Side
  | LONG
  | SHORT
deriving DecidableEq, Repr

structure Position where
  side : Side
  entry : Frac
  sl : Frac
  tp : Frac
deriving DecidableEq, Repr

/-- The dict returned by `LiveStrategyEngine.process_strategy` when not
`None`. -/
inductive LiveSignal
  | exitSig (reason : String) (exit_price : Frac)
  | buy (entry_price sl tp : Frac)
  | sell (entry_price sl tp : Frac)
deriving DecidableEq, Repr

def SL_HIT : String := "SL HIT"

def TP_HIT : String := "TP HIT"

/-- Mutable per-symbol state of `LiveStrategyEngine` (the fields touched by
`update_candle` / `process_strategy`). -/
structure LiveState where
  df : List Candle
  long_taken_today : Bool
  short_taken_today : Bool
  active_position : Option Position
  pdh : Option Frac
  pdl : Option Frac
  today_date : Option ℕ
  current_minute : Option ℕ
deriving DecidableEq, Repr

def lastRow (df : List Candle) : Candle := df.getLastD cd0

def prevRow (df : List Candle) : Candle := df.dropLast.getLastD cd0

def emaLast (df : List Candle) : Frac :=
  (emaAdjusted 200 (df.map Candle.close)).getLastD 0

def vwapLast (df : List Candle) : Frac := (vwapList df).getLastD 0

def volMALast (df : List Candle) : Option Frac :=
  (rollMean 20 (df.map Candle.volume)).getD (df.length - 1) none

def listMaxF : List Frac → Option Frac
  | [] => none
  | x :: xs =>
      match listMaxF xs with
      | none => some x
      | some m => some (fmax x m)

def listMinF : List Frac → Option Frac
  | [] => none
  | x :: xs =>
      match listMinF xs with
      | none => some x
      | some m => some (fmin x m)

/-- `self.today_date != cur_date` guard of the date-change block. -/
def dateChangedB (df : List Candle) (today0 : Option ℕ) : Bool :=
  decide (today0 ≠ some (dateOf (lastRow df)))

/-- Value of `self.pdh` after the date-change block of `process_strategy`:
on a date change it is recomputed as `max(high)` over the retained candles of
a different date (kept unchanged when there are none), else kept. -/
def pdhAfter (df : List Candle) (today0 : Option ℕ) (pdh0 : Option Frac) :
    Option Frac :=
  if dateChangedB df today0 then
    match listMaxF ((df.filter fun c =>
        decide (dateOf c ≠ dateOf (lastRow df))).map Candle.high) with
    | some v => some v
    | none => pdh0
  else pdh0

/-- Same for `self.pdl`, with `min(low)`. -/
def pdlAfter (df : List Candle) (today0 : Option ℕ) (pdl0 : Option Frac) :
    Option Frac :=
  if dateChangedB df today0 then
    match listMinF ((df.filter fun c =>
        decide (dateOf c ≠ dateOf (lastRow df))).map Candle.low) with
    | some v => some v
    | none => pdl0
  else pdl0

/-- `self.trade_start <= curTime <= self.trade_end` with the live constants
915 / 1525. -/
def can_tradeB (df : List Candle) : Bool :=
  decide (915 ≤ curTimeOf (lastRow df)) && decide (curTimeOf (lastRow df) ≤ 1525)

/-- Volume confirmation of the live engine: `False` when `VolMA` is NaN,
else `row.volume > row.VolMA * 1.5`. -/
def vol_okB (df : List Candle) : Bool :=
  match volMALast df with
  | none => false
  | some m => decide ((lastRow df).volume > m * ((3 : Frac) / 2))

/-- `dist_pct >= 0.15` with `dist_pct = abs(close - VWAP) / VWAP * 100`. -/
def vwap_okB (df : List Candle) : Bool :=
  decide (fabs ((lastRow df).close - vwapLast df) / vwapLast df * 100 ≥ (3 : Frac) / 20)

def uptrendB (df : List Candle) : Bool :=
  decide ((lastRow df).close > emaLast df)

def downtrendB (df : List Candle) : Bool :=
  decide ((lastRow df).close < emaLast df)

/-- `self.pdh is not None and row.close > self.pdh and prev.close <= self.pdh`
(evaluated against the already-updated `self.pdh`). -/
def long_breakB (df : List Candle) (pdh : Option Frac) : Bool :=
  match pdh with
  | none => false
  | some p => decide ((lastRow df).close > p) && decide ((prevRow df).close ≤ p)

def short_breakB (df : List Candle) (pdl : Option Frac) : Bool :=
  match pdl with
  | none => false
  | some p => decide ((lastRow df).close < p) && decide ((prevRow df).close ≥ p)

/-- Everything `process_strategy` computes once `len(df) >= 210`, except the
write-back of the two daily-taken flags (which the method resets on a date
change and never reads nor sets anywhere else; `process_strategy` below does
that write-back from `changed`). -/
structure CoreOut where
  changed : Bool
  today : Option ℕ
  pdh : Option Frac
  pdl : Option Frac
  pos : Option Position
  signal : Option LiveSignal
deriving DecidableEq, Repr

def processCore (df : List Candle) (today0 : Option ℕ) (pdh0 pdl0 : Option Frac)
    (apos : Option Position) : CoreOut :=
  let row := lastRow df
  let changed := dateChangedB df today0
  let today := if changed then some (dateOf row) else today0
  let pdh := pdhAfter df today0 pdh0
  let pdl := pdlAfter df today0 pdl0
  match apos with
  | some pos =>
      match pos.side with
      | Side.LONG =>
          if row.low ≤ pos.sl then
            ⟨changed, today, pdh, pdl, none, some (LiveSignal.exitSig SL_HIT pos.sl)⟩
          else if row.high ≥ pos.tp then
            ⟨changed, today, pdh, pdl, none, some (LiveSignal.exitSig TP_HIT pos.tp)⟩
          else ⟨changed, today, pdh, pdl, some pos, none⟩
      | Side.SHORT =>
          if row.high ≥ pos.sl then
            ⟨changed, today, pdh, pdl, none, some (LiveSignal.exitSig SL_HIT pos.sl)⟩
          else if row.low ≤ pos.tp then
            ⟨changed, today, pdh, pdl, none, some (LiveSignal.exitSig TP_HIT pos.tp)⟩
          else ⟨changed, today, pdh, pdl, some pos, none⟩
  | none =>
      let shortTry : Option Position × Option LiveSignal :=
        if can_tradeB df && vol_okB df && vwap_okB df && downtrendB df
            && short_breakB df pdl then
          let sl := fmax (vwapLast df * ((1 : Frac) + ((2 : Frac) / 25) / 100)) row.high
          if sl > row.close then
            let tp := row.close - (sl - row.close) * ((8 : Frac) / 5)
            (some ⟨Side.SHORT, row.close, sl, tp⟩,
              some (LiveSignal.sell row.close sl tp))
          else (none, none)
        else (none, none)
      if can_tradeB df && vol_okB df && vwap_okB df && uptrendB df
          && long_breakB df pdh then
        let sl := fmin (vwapLast df * ((1 : Frac) - ((2 : Frac) / 25) / 100)) row.low
        if sl < row.close then
          let tp := row.close + (row.close - sl) * ((8 : Frac) / 5)
          ⟨changed, today, pdh, pdl, some ⟨Side.LONG, row.close, sl, tp⟩,
            some (LiveSignal.buy row.close sl tp)⟩
        else ⟨changed, today, pdh, pdl, shortTry.1, shortTry.2⟩
      else ⟨changed, today, pdh, pdl, shortTry.1, shortTry.2⟩

/-- `LiveStrategyEngine.process_strategy`, as a pure transition on
`LiveState`.  Returns the new state and the returned signal (`none` for
Python `None`). -/
def process_strategy (s : LiveState) : LiveState × Option LiveSignal :=
  if s.df.length < 210 then (s, none)
  else
    let r := processCore s.df s.today_date s.pdh s.pdl s.active_position
    ({ s with today_date := r.today,
              long_taken_today := if r.changed then false else s.long_taken_today,
              short_taken_today := if r.changed then false else s.short_taken_today,
              pdh := r.pdh, pdl := r.pdl, active_position := r.pos }, r.signal)

/-- The tick fields `update_candle` reads: `ltt` (epoch millis), `ltp`
(last traded price), `ltq` (last traded quantity). -/
structure Tick where
  ltt : ℕ
  ltp : Frac
  ltq : ℕ
deriving DecidableEq, Repr

/-- The 5-minute bucket of a tick, in IST minutes: seconds = `ltt // 1000`,
plus the 5:30 IST offset, truncated to minutes and floored to a multiple
of 5. -/
def bucketOf (t : Tick) : ℕ := (t.ltt / 1000 + 19800) / 60 / 5 * 5

def updLast (f : Candle → Candle) : List Candle → List Candle
  | [] => []
  | [c] => [f c]
  | c :: cs => c :: updLast f cs

/-- `LiveStrategyEngine.update_candle`: whenever the tick bucket differs from
`current_minute` a brand-new candle is appended (the DB write of the previous
candle is a side effect outside the decision path), otherwise the last candle
is mutated in place; then `process_strategy` runs. -/
def update_candle (s : LiveState) (t : Tick) : LiveState × Option LiveSignal :=
  let minute_ts := bucketOf t
  let s2 :=
    if s.current_minute ≠ some minute_ts then
      { s with current_minute := some minute_ts,
               df := s.df ++ [⟨minute_ts, t.ltp, t.ltp, t.ltp, t.ltp, (t.ltq : Frac)⟩] }
    else
      { s with df := updLast (fun c =>
          { c with high := fmax c.high t.ltp, low := fmin c.low t.ltp,
                   close := t.ltp, volume := c.volume + (t.ltq : Frac) }) s.df }
  process_strategy s2

def initState : LiveState := ⟨[], false, false, none, none, none, none, none⟩

/-- Feed a tick list through the live engine, collecting the per-tick
results. -/
def runLive : LiveState → List Tick → LiveState × List (Option LiveSignal)
  | s, [] => (s, [])
  | s, t :: ts =>
      let r := update_candle s t
      let rest := runLive r.1 ts
      (rest.1, r.2 :: rest.2)

/-- One enriched row of the batch driver dataframe after the indicator /
condition columns of `compute_intraday_strategy` are added. -/
structure BRow where
  ts : ℕ
  date : ℕ
  curTime : ℕ
  high : Frac
  low : Frac
  close : Frac
  VWAP : Frac
  PDH : Option Frac
  PDL : Option Frac
  can_trade : Bool
  vol_ok : Bool
  vwap_ok : Bool
  uptrend : Bool
  downtrend : Bool
  long_break : Bool
  short_break : Bool
deriving DecidableEq, Repr

def insSorted (x : ℕ) : List ℕ → List ℕ
  | [] => [x]
  | y :: ys => if x ≤ y then x :: y :: ys else y :: insSorted x ys

/-- The distinct dates of the table in ascending order (pandas `groupby`
sorts its keys). -/
def sortedDates (df : List Candle) : List ℕ :=
  ((df.map dateOf).dedup).foldr insSorted []

/-- The date immediately preceding `d` in `ds` (the effect of `.shift(1)` on
the per-date group table). -/
def prevDateIn (ds : List ℕ) (d : ℕ) : Option ℕ :=
  ((((none : Option ℕ) :: ds.map some).zip ds).find? fun p =>
    decide (p.2 = d)).bind fun p => p.1

def dayHigh (df : List Candle) (d : ℕ) : Option Frac :=
  listMaxF ((df.filter fun c => decide (dateOf c = d)).map Candle.high)

def dayLow (df : List Candle) (d : ℕ) : Option Frac :=
  listMinF ((df.filter fun c => decide (dateOf c = d)).map Candle.low)

/-- `df["PDH"]` of the batch driver: the **immediately preceding** calendar
day's maximum high (`groupby(date).high.max().shift(1)` mapped back by
date); `none` (NaN) for the earliest date. -/
def pdhOfDate (df : List Candle) (d : ℕ) : Option Frac :=
  (prevDateIn (sortedDates df) d).bind fun pd => dayHigh df pd

def pdlOfDate (df : List Candle) (d : ℕ) : Option Frac :=
  (prevDateIn (sortedDates df) d).bind fun pd => dayLow df pd

/-- Row `i` of the enriched batch dataframe.  NaN propagation of pandas is
mirrored by `Option`: any comparison against a missing value is `false`. -/
def enrichRow (df : List Candle) (vol_mult vwap_dist_pct : Frac)
    (avoid_lunch : Bool) (trade_start trade_end : ℕ)
    (emaL vwapL : List Frac) (volL : List (Option Frac)) (i : ℕ) : BRow :=
  let c := df.getD i cd0
  let d := dateOf c
  let t := curTimeOf c
  let vw := vwapL.getD i 0
  let em := emaL.getD i 0
  let pdh := pdhOfDate df d
  let pdl := pdlOfDate df d
  let in_session := decide (trade_start ≤ t) && decide (t ≤ trade_end)
  let in_lunch := avoid_lunch && (decide (1200 ≤ t) && decide (t ≤ 1330))
  let vol_ok :=
    match volL.getD i none with
    | none => false
    | some m => decide (c.volume > m * vol_mult)
  let dist_pct := fabs (c.close - vw) / vw * 100
  let prevClose : Option Frac :=
    match i with
    | 0 => none
    | Nat.succ j => some ((df.getD j cd0).close)
  ⟨c.ts, d, t, c.high, c.low, c.close, vw, pdh, pdl,
   in_session && !in_lunch,
   vol_ok,
   decide (dist_pct ≥ vwap_dist_pct),
   decide (c.close > em), decide (c.close < em),
   (match pdh, prevClose with
    | some p, some pc => decide (c.close > p) && decide (pc ≤ p)
    | _, _ => false),
   (match pdl, prevClose with
    | some p, some pc => decide (c.close < p) && decide (pc ≥ p)
    | _, _ => false)⟩

/-- Indicator and condition column phase of `compute_intraday_strategy`. -/
def enrich (df : List Candle) (ema_len vol_len : ℕ) (vol_mult vwap_dist_pct : Frac)
    (avoid_lunch : Bool) (trade_start trade_end : ℕ) : List BRow :=
  let emaL := emaRec ema_len (df.map Candle.close)
  let vwapL := vwapList df
  let volL := rollMean vol_len (df.map Candle.volume)
  (List.range df.length).map
    (enrichRow df vol_mult vwap_dist_pct avoid_lunch trade_start trade_end
      emaL vwapL volL)

def SL_Hit : String := "SL Hit"

def TP_Hit : String := "TP Hit"

def FORCED_SQUARE_OFF : String := "Forced Square-Off"

/-- One element of the `trades` list the batch driver returns. -/
structure BTrade where
  entry_time : ℕ
  exit_time : ℕ
  entry_price : Frac
  exit_price : Frac
  side : Side
  reason : String
deriving DecidableEq, Repr

/-- The loop state of the execution loop of `compute_intraday_strategy`. -/
structure BState where
  trades : List BTrade
  longTakenToday : Bool
  shortTakenToday : Bool
  active : Option (BRow × Frac × Frac × Side)
  prev_date : Option ℕ
deriving DecidableEq, Repr

/-- One iteration of the execution loop of `compute_intraday_strategy`:
daily flag reset, forced square-off at `trade_end`, SL/TP exits, then the
mutually exclusive LONG / SHORT entry blocks. -/
def bstep (trade_end : ℕ) (rr_ratio sl_buffer_pct : Frac) (st : BState)
    (row : BRow) : BState :=
  let reset :=
    match st.prev_date with
    | some d => decide (d ≠ row.date)
    | none => false
  let st1 : BState :=
    { st with longTakenToday := if reset then false else st.longTakenToday,
              shortTakenToday := if reset then false else st.shortTakenToday,
              prev_date := some row.date }
  match st1.active with
  | some (entry, sl, tp, side) =>
      if row.curTime = trade_end then
        { st1 with
          trades := st1.trades
            ++ [⟨entry.ts, row.ts, entry.close, row.close, side, FORCED_SQUARE_OFF⟩],
          active := none }
      else
        match side with
        | Side.LONG =>
            if row.low ≤ sl then
              { st1 with
                trades := st1.trades
                  ++ [⟨entry.ts, row.ts, entry.close, sl, side, SL_Hit⟩],
                active := none }
            else if row.high ≥ tp then
              { st1 with
                trades := st1.trades
                  ++ [⟨entry.ts, row.ts, entry.close, tp, side, TP_Hit⟩],
                active := none }
            else st1
        | Side.SHORT =>
            if row.high ≥ sl then
              { st1 with
                trades := st1.trades
                  ++ [⟨entry.ts, row.ts, entry.close, sl, side, SL_Hit⟩],
                active := none }
            else if row.low ≤ tp then
              { st1 with
                trades := st1.trades
                  ++ [⟨entry.ts, row.ts, entry.close, tp, side, TP_Hit⟩],
                active := none }
            else st1
  | none =>
      if row.can_trade && row.vol_ok && row.vwap_ok && row.uptrend
          && row.long_break && !st1.longTakenToday then
        let sl := fmin (row.VWAP * ((1 : Frac) - sl_buffer_pct / 100)) row.low
        if sl < row.close then
          { st1 with
            active := some (row, sl, row.close + (row.close - sl) * rr_ratio,
              Side.LONG),
            longTakenToday := true }
        else st1
      else if row.can_trade && row.vol_ok && row.vwap_ok && row.downtrend
          && row.short_break && !st1.shortTakenToday then
        let sl := fmax (row.VWAP * ((1 : Frac) + sl_buffer_pct / 100)) row.high
        if sl > row.close then
          { st1 with
            active := some (row, sl, row.close - (sl - row.close) * rr_ratio,
              Side.SHORT),
            shortTakenToday := true }
        else st1
      else st1

def binit : BState := ⟨[], false, false, none, none⟩

/-- `base_strategy.compute_intraday_strategy` (its `only_first_break`
parameter is accepted by the Python function but never used in its body and
is omitted here).  `trade_start` / `trade_end` are the parsed `HHMM`
integers. -/
def compute_intraday_strategy (df : List Candle) (ema_len vol_len : ℕ)
    (vol_mult rr_ratio vwap_dist_pct sl_buffer_pct : Frac)
    (avoid_lunch : Bool) (trade_start trade_end : ℕ) : List BTrade :=
  ((enrich df ema_len vol_len vol_mult vwap_dist_pct avoid_lunch trade_start
      trade_end).foldl
    (bstep trade_end rr_ratio sl_buffer_pct) binit).trades

/-- The batch driver at its default parameters (`ema_len=200, vol_len=20,
vol_mult=1.5, rr_ratio=1.6, vwap_dist_pct=0.15, sl_buffer_pct=0.08,
avoid_lunch=True, trade_start=0915, trade_end=1525`). -/
def compute_intraday_strategy_default (df : List Candle) : List BTrade :=
  compute_intraday_strategy df 200 20 ((3 : Frac) / 2) ((8 : Frac) / 5)
    ((3 : Frac) / 20) ((2 : Frac) / 25) true 915 1525

/-- A tick that lands at the start of the 5-minute bucket `day * 1440 +
modmin` (IST): `ltt` is the corresponding epoch-milliseconds value. -/
def mkT (day modmin : ℕ) (p : Frac) (q : ℕ) : Tick :=
  ⟨((day * 1440 + modmin) * 60 - 19800) * 1000, p, q⟩

/-- Tick sequence for the replay-equivalence counterexample: one tick per
5-minute bucket.  Day 20000: five candles at 09:15–09:35, price 100,
quantity 10.  Day 20001: nineteen candles 09:15–10:45 at price 99, then a
high-volume breakout candle at 10:50 (price 106, quantity 100), then a
candle at 15:25 (price 105, quantity 10). -/
def c1ticks : List Tick :=
  ((List.range 5).map fun k => mkT 20000 (555 + 5 * k) 100 10)
    ++ ((List.range 19).map fun k => mkT 20001 (555 + 5 * k) 99 10)
    ++ [mkT 20001 650 106 100, mkT 20001 925 105 10]

/-- The candle series that aggregating `c1ticks` produces. -/
def c1df : List Candle := (runLive initState c1ticks).1.df

/-- The per-tick outputs of the live engine on `c1ticks`. -/
def c1sigs : List (Option LiveSignal) := (runLive initState c1ticks).2

def isEntrySig : Option LiveSignal → Bool
  | some (LiveSignal.buy _ _ _) => true
  | some (LiveSignal.sell _ _ _) => true
  | _ => false

def isBuySig : Option LiveSignal → Bool
  | some (LiveSignal.buy _ _ _) => true
  | _ => false

def isExitSig : Option LiveSignal → Bool
  | some (LiveSignal.exitSig _ _) => true
  | _ => false

/-- The stop-loss the live LONG-entry block computes:
`min(VWAP * (1 - 0.08/100), row.low)`. -/
def slLong (df : List Candle) : Frac :=
  fmin (vwapLast df * ((1 : Frac) - ((2 : Frac) / 25) / 100)) (lastRow df).low

/-- The matching take-profit: `close + (close - sl) * 1.6`. -/
def tpLong (df : List Candle) : Frac :=
  (lastRow df).close + ((lastRow df).close - slLong df) * ((8 : Frac) / 5)

def brow0 : BRow :=
  ⟨0, 0, 0, 0, 0, 0, 0, none, none, false, false, false, false, false, false, false⟩

/-- 209 identical warm-up candles (price 100, volume 10) ending right before
the 10:00 bucket of day 20001, then a breakout candle at 10:00: close 106,
low 105, volume 300. -/
def c6df : List Candle :=
  ((List.range 209).map fun i =>
    ⟨(20001 * 1440 - 445) + 5 * i, 100, 100, 100, 100, 10⟩)
    ++ [⟨20001 * 1440 + 600, 106, 106, 105, 106, 300⟩]

/-- Engine state holding `c6df` mid-day (no date change pending), previous-day
levels 100 / 95, no open position. -/
def c6state : LiveState :=
  ⟨c6df, false, false, none, some 100, some 95, some 20001, some (20001 * 1440 + 600)⟩

/-- The warm-up prefix of `c6df` alone, as a pre-seeded engine state. -/
def c2s0 : LiveState :=
  ⟨(List.range 209).map (fun i =>
      ⟨(20001 * 1440 - 445) + 5 * i, 100, 100, 100, 100, 10⟩),
   false, false, none, some 100, some 95, some 20001,
   some ((20001 * 1440 - 445) + 5 * 208)⟩

/-- Three ticks, all on day 20001: a breakout at 10:00 (price 106, qty 300),
a slump at 10:05 (price 98) that hits the stop, and a second breakout at
10:10 (price 107, qty 400). -/
def c2ticks : List Tick :=
  [mkT 20001 600 106 300, mkT 20001 605 98 10, mkT 20001 610 107 400]

/-- A fresh-bucket tick at 10:00 of day 20000 followed by a stale tick whose
5-minute bucket (09:55) precedes the already-open bucket. -/
def c4ticks : List Tick := [mkT 20000 600 100 10, mkT 20000 595 101 5]

/-- Three days of single candles with highs 110, 105, 104: the maximum high
over everything before day 20002 is 110, on day 20001 only 105. -/
def c5df : List Candle :=
  [⟨20000 * 1440 + 600, 100, 110, 99, 100, 10⟩,
   ⟨20001 * 1440 + 600, 100, 105, 98, 100, 10⟩,
   ⟨20002 * 1440 + 600, 100, 104, 97, 100, 10⟩]

/-- 210 copies of a wide candle (high 120, low 90, close 100) on day 20001. -/
def dfWide : List Candle :=
  List.replicate 210 ⟨20001 * 1440 + 600, 100, 120, 90, 100, 10⟩

/-- `dfWide` with an open LONG whose stop 95 and target 110 are both touched
by the last candle. -/
def sLongBoth : LiveState :=
  ⟨dfWide, false, false, some ⟨Side.LONG, 105, 95, 110⟩, some 100, some 95,
   some 20001, none⟩

/-- `dfWide` with an open SHORT whose stop 115 and target 96 are both touched
by the last candle. -/
def sShortBoth : LiveState :=
  ⟨dfWide, false, false, some ⟨Side.SHORT, 105, 115, 96⟩, some 100, some 95,
   some 20001, none⟩

/-- 210 copies of a narrow candle (high 101, low 99) on day 20001. -/
def dfNarrow : List Candle :=
  List.replicate 210 ⟨20001 * 1440 + 600, 100, 101, 99, 100, 10⟩

/-- `dfNarrow` with an open LONG far from both its stop 90 and target 200. -/
def sLongOpen : LiveState :=
  ⟨dfNarrow, false, false, some ⟨Side.LONG, 100, 90, 200⟩, some 100, some 95,
   some 20001, none⟩

/-- A small single-candle state with an open LONG whose stop (101) the candle
notionally touches. -/
def smallPosState : LiveState :=
  ⟨[⟨20001 * 1440 + 600, 100, 100, 100, 100, 10⟩], false, false,
   some ⟨Side.LONG, 100, 101, 110⟩, none, none, none, none⟩

/-- A batch row at the session end (`curTime = 1525`) touching both 95 and
110 (low 90, high 120), close 100. -/
def c3row : BRow :=
  ⟨20001 * 1440 + 925, 20001, 1525, 120, 90, 100, 100, some 100, some 95,
   true, false, false, false, false, false, false⟩

/-- An entry row (close 105) recorded inside an active batch LONG. -/
def c3entryRow : BRow :=
  ⟨20001 * 1440 + 600, 20001, 1000, 106, 104, 105, 100, some 100, some 95,
   true, true, true, true, false, true, false⟩

/-- Batch loop state holding a LONG entered at 105 with stop 95, target 110. -/
def c3st : BState := ⟨[], true, false, some (c3entryRow, 95, 110, Side.LONG), some 20001⟩

/-- A mid-session batch row (`curTime = 1000`) touching both 95 and 110. -/
def c3rowMid : BRow :=
  ⟨20001 * 1440 + 600, 20001, 1000, 120, 90, 100, 100, some 100, some 95,
   true, false, false, false, false, false, false⟩

/-- A batch row far from stop 90 and target 200 (high 101, low 99). -/
def c9row : BRow :=
  ⟨20001 * 1440 + 600, 20001, 1000, 101, 99, 100, 100, some 100, some 95,
   true, false, false, false, false, false, false⟩

/-- Batch loop state holding a LONG entered at 105 with stop 90, target 200. -/
def c9st : BState := ⟨[], true, false, some (c3entryRow, 90, 200, Side.LONG), some 20001⟩

theorem processCore_session (df : List Candle) (t0 : Option ℕ) (h0 l0 : Option Frac)
    (apos : Option Position) :
    (processCore df t0 h0 l0 apos).changed = dateChangedB df t0
      ∧ (processCore df t0 h0 l0 apos).today
          = (if dateChangedB df t0 then some (dateOf (lastRow df)) else t0)
      ∧ (processCore df t0 h0 l0 apos).pdh = pdhAfter df t0 h0
      ∧ (processCore df t0 h0 l0 apos).pdl = pdlAfter df t0 l0 := by
  unfold processCore
  rcases apos with _ | ⟨side, e, sl, tp⟩
  · dsimp only
    repeat' split
    all_goals exact ⟨rfl, rfl, rfl, rfl⟩
  · cases side <;> dsimp only <;> repeat' split
    all_goals exact ⟨rfl, rfl, rfl, rfl⟩

/-- Claim C10: with fewer than 210 retained candles `process_strategy`
returns `None` and leaves the whole state (in particular any open position)
untouched; no exit can be emitted. -/
theorem C10_min_history_gate (s : LiveState) (h : s.df.length < 210) :
    process_strategy s = (s, none) := by
  unfold process_strategy
  rw [if_pos h]

theorem C10_min_history_gate_witness :
    smallPosState.df.length < 210
      ∧ process_strategy smallPosState = (smallPosState, none) :=
  ⟨by decide, C10_min_history_gate smallPosState (by decide)⟩

/-- Claim C4 (refuted at this input): fed a tick for the 10:00 bucket of day
20000 and then a stale tick whose bucket (09:55) precedes the open bucket,
`update_candle` does not reject the stale tick: it appends a second candle
whose `open_time` is smaller than the previous candle's, so the series is
not append-only with strictly increasing `open_time`. -/
theorem C4_stale_tick_creates_new_candle :
    (runLive initState c4ticks).1.df.map Candle.ts = [28800600, 28800595]
      ∧ bucketOf (mkT 20000 595 101 5) < bucketOf (mkT 20000 600 100 10) := by
  decide

set_option maxRecDepth 100000 in
/-- Claim C1 (refuted at this input): aggregating `c1ticks` produces the
26-candle series `c1df`; the batch driver over `c1df` records a LONG trade
(entered on the 10:50 breakout, squared off at 15:25), while the live engine
driven by the very same ticks emits no signal at any tick (its 210-candle
minimum is never reached), so the two drivers do not yield identical
entry/exit decisions. -/
theorem C1_replay_divergence :
    (compute_intraday_strategy_default c1df).map BTrade.side = [Side.LONG]
      ∧ (compute_intraday_strategy_default c1df).map BTrade.reason = [FORCED_SQUARE_OFF]
      ∧ c1sigs.all (fun o => o.isNone) = true
      ∧ c1sigs.length = c1ticks.length := by
  decide

/-- Claim C3 (refuted at this input): in the batch driver, a candle at the
session end (`curTime = 1525`) whose range touches both the stored stop 95
(low 90) and the stored target 110 (high 120) of an open LONG exits with
reason `Forced Square-Off` at the candle close 100 — not with the stop-loss
reason and not at the stored stop-loss price. -/
theorem C3_counterexample :
    (c3row.low ≤ (95 : Frac) ∧ c3row.high ≥ (110 : Frac))
      ∧ (bstep 1525 ((8 : Frac) / 5) ((2 : Frac) / 25) c3st c3row).trades.map
          BTrade.reason = [FORCED_SQUARE_OFF]
      ∧ (bstep 1525 ((8 : Frac) / 5) ((2 : Frac) / 25) c3st c3row).trades.map
          BTrade.exit_price = [(100 : Frac)]
      ∧ decide (Frac.eqv 100 95) = false
      ∧ decide (FORCED_SQUARE_OFF = SL_Hit) = false := by
  decide

/-- Claim C5 (refuted at this input): on a three-day table with daily highs
110, 105, 104, the batch driver's `PDH` for the day-20002 row is 105 (the
immediately preceding day's high), not the maximum 110 over all retained
candles dated strictly before 20002. -/
theorem C5_counterexample :
    ((enrich c5df 200 20 ((3 : Frac) / 2) ((3 : Frac) / 20) true 915
        1525).getLastD brow0).PDH = some 105
      ∧ listMaxF ((c5df.filter fun c => decide (dateOf c < 20002)).map
          Candle.high) = some 110
      ∧ dateOf (c5df.getLastD cd0) = 20002
      ∧ decide (Frac.eqv 105 110) = false := by
  decide

theorem uptrend_not_downtrend (df : List Candle) (hup : uptrendB df = true) :
    downtrendB df = false := by
  have h1 : (emaLast df).n * (lastRow df).close.d
      < (lastRow df).close.n * (emaLast df).d := of_decide_eq_true hup
  unfold downtrendB
  rw [decide_eq_false_iff_not]
  intro h2
  have h2' : (lastRow df).close.n * (emaLast df).d
      < (emaLast df).n * (lastRow df).close.d := h2
  exact absurd h1 (lt_asymm h2')

theorem core_exit_reason (df : List Candle) (t0 : Option ℕ) (h0 l0 : Option Frac)
    (apos : Option Position) (reason : String) (price : Frac)
    (h : (processCore df t0 h0 l0 apos).signal
      = some (LiveSignal.exitSig reason price)) :
    reason = SL_HIT ∨ reason = TP_HIT := by
  unfold processCore at h
  rcases apos with _ | ⟨side, e, psl, ptp⟩
  · dsimp only at h
    repeat' split at h
    all_goals simp_all
  · cases side <;> dsimp only at h <;> repeat' split at h
    all_goals simp_all

theorem core_pos_cases (df : List Candle) (t0 : Option ℕ) (h0 l0 : Option Frac)
    (p : Position) :
    ((processCore df t0 h0 l0 (some p)).pos = none
      ∨ (processCore df t0 h0 l0 (some p)).pos = some p)
    ∧ isEntrySig (processCore df t0 h0 l0 (some p)).signal = false := by
  unfold processCore
  rcases p with ⟨side, e, psl, ptp⟩
  cases side <;> dsimp only <;> repeat' split
  all_goals simp [isEntrySig]

theorem core_long_entry_accept (df : List Candle) (t0 : Option ℕ)
    (h0 l0 : Option Frac)
    (hct : can_tradeB df = true) (hvol : vol_okB df = true)
    (hvw : vwap_okB df = true) (hup : uptrendB df = true)
    (hbr : long_breakB df (pdhAfter df t0 h0) = true)
    (hsl : slLong df < (lastRow df).close) :
    processCore df t0 h0 l0 none
      = ⟨dateChangedB df t0,
         (if dateChangedB df t0 then some (dateOf (lastRow df)) else t0),
         pdhAfter df t0 h0, pdlAfter df t0 l0,
         some ⟨Side.LONG, (lastRow df).close, slLong df, tpLong df⟩,
         some (LiveSignal.buy (lastRow df).close (slLong df) (tpLong df))⟩ := by
  unfold processCore
  dsimp only
  rw [hct, hvol, hvw, hup, hbr]
  simp only [Bool.and_self, Bool.true_and, Bool.and_true, if_true]
  simp only [slLong, tpLong] at hsl ⊢
  rw [if_pos hsl]

theorem core_long_entry_reject (df : List Candle) (t0 : Option ℕ)
    (h0 l0 : Option Frac)
    (hct : can_tradeB df = true) (hvol : vol_okB df = true)
    (hvw : vwap_okB df = true) (hup : uptrendB df = true)
    (hbr : long_breakB df (pdhAfter df t0 h0) = true)
    (hsl : ¬ slLong df < (lastRow df).close) :
    processCore df t0 h0 l0 none
      = ⟨dateChangedB df t0,
         (if dateChangedB df t0 then some (dateOf (lastRow df)) else t0),
         pdhAfter df t0 h0, pdlAfter df t0 l0, none, none⟩ := by
  have hdown := uptrend_not_downtrend df hup
  unfold processCore
  dsimp only
  rw [hct, hvol, hvw, hup, hbr, hdown]
  simp only [Bool.and_self, Bool.true_and, Bool.and_true, Bool.and_false,
    Bool.false_and, if_true, if_false]
  simp only [slLong] at hsl
  rw [if_neg hsl]
  simp

/-- Claim C6: when the live engine processes an update (at least 210
candles, no open position) on which `can_trade`, volume confirmation, VWAP
distance, uptrend (`close > EMA200`) and the previous-day-high breakout all
hold, the stop-loss is `min(VWAP * (1 - 0.08/100), row.low)`; if that stop
is below the close a LONG opens at the close with take-profit
`close + (close - sl) * 1.6` and a BUY signal carrying exactly those values
is emitted, and otherwise (`sl >= close`) no position is opened and no
signal is emitted. -/
theorem C6_long_entry (s : LiveState) (hlen : ¬ s.df.length < 210)
    (hpos : s.active_position = none)
    (hct : can_tradeB s.df = true) (hvol : vol_okB s.df = true)
    (hvw : vwap_okB s.df = true) (hup : uptrendB s.df = true)
    (hbr : long_breakB s.df (pdhAfter s.df s.today_date s.pdh) = true) :
    (slLong s.df < (lastRow s.df).close →
        (process_strategy s).2
          = some (LiveSignal.buy (lastRow s.df).close (slLong s.df) (tpLong s.df))
        ∧ (process_strategy s).1.active_position
          = some ⟨Side.LONG, (lastRow s.df).close, slLong s.df, tpLong s.df⟩)
    ∧ (¬ slLong s.df < (lastRow s.df).close →
        (process_strategy s).2 = none
        ∧ (process_strategy s).1.active_position = none) := by
  constructor <;> intro hsl <;> unfold process_strategy <;> rw [if_neg hlen]
    <;> dsimp only <;> rw [hpos]
  · rw [core_long_entry_accept s.df s.today_date s.pdh s.pdl hct hvol hvw hup hbr hsl]
    exact ⟨rfl, rfl⟩
  · rw [core_long_entry_reject s.df s.today_date s.pdh s.pdl hct hvol hvw hup hbr hsl]
    exact ⟨rfl, rfl⟩

set_option maxRecDepth 100000 in
theorem C6_long_entry_witness :
    (process_strategy c6state).2
        = some (LiveSignal.buy (lastRow c6state.df).close (slLong c6state.df)
            (tpLong c6state.df))
      ∧ (process_strategy c6state).1.active_position
        = some ⟨Side.LONG, (lastRow c6state.df).close, slLong c6state.df,
            (tpLong c6state.df)⟩ :=
  (C6_long_entry c6state (by decide) rfl (by decide) (by decide) (by decide)
    (by decide) (by decide)).1 (by decide)

/-- Batch loop state holding a SHORT entered at 105 with stop 115, target
96. -/
def c3stS : BState :=
  ⟨[], false, true, some (c3entryRow, 115, 96, Side.SHORT), some 20001⟩

/-- Claim C3 (amended): stop-loss is evaluated before take-profit and an
exit prices at exactly the stored stop — in the live engine on every
processed update (once the 210-candle minimum holds), and in the batch
driver on every candle except the `trade_end` candle, where the forced
square-off of C8 takes precedence and exits at the close instead. -/
theorem C3_amended :
    (∀ (s : LiveState) (p : Position), ¬ s.df.length < 210 →
        s.active_position = some p → p.side = Side.LONG →
        (lastRow s.df).low ≤ p.sl →
          (process_strategy s).2 = some (LiveSignal.exitSig SL_HIT p.sl)
          ∧ (process_strategy s).1.active_position = none)
    ∧ (∀ (s : LiveState) (p : Position), ¬ s.df.length < 210 →
        s.active_position = some p → p.side = Side.SHORT →
        (lastRow s.df).high ≥ p.sl →
          (process_strategy s).2 = some (LiveSignal.exitSig SL_HIT p.sl)
          ∧ (process_strategy s).1.active_position = none)
    ∧ (∀ (te : ℕ) (rr bp : Frac) (st : BState) (row e : BRow) (sl tp : Frac),
        st.active = some (e, sl, tp, Side.LONG) → row.curTime ≠ te →
        row.low ≤ sl →
          (bstep te rr bp st row).trades
            = st.trades ++ [⟨e.ts, row.ts, e.close, sl, Side.LONG, SL_Hit⟩]
          ∧ (bstep te rr bp st row).active = none)
    ∧ (∀ (te : ℕ) (rr bp : Frac) (st : BState) (row e : BRow) (sl tp : Frac),
        st.active = some (e, sl, tp, Side.SHORT) → row.curTime ≠ te →
        row.high ≥ sl →
          (bstep te rr bp st row).trades
            = st.trades ++ [⟨e.ts, row.ts, e.close, sl, Side.SHORT, SL_Hit⟩]
          ∧ (bstep te rr bp st row).active = none) := by
  refine ⟨?_, ?_, ?_, ?_⟩
  · intro s p hlen hpos hside hlow
    unfold process_strategy
    rw [if_neg hlen]
    dsimp only
    rw [hpos]
    unfold processCore
    rcases p with ⟨side, pe, psl, ptp⟩
    dsimp only at hside hlow ⊢
    subst hside
    dsimp only
    rw [if_pos hlow]
    exact ⟨rfl, rfl⟩
  · intro s p hlen hpos hside hhigh
    unfold process_strategy
    rw [if_neg hlen]
    dsimp only
    rw [hpos]
    unfold processCore
    rcases p with ⟨side, pe, psl, ptp⟩
    dsimp only at hside hhigh ⊢
    subst hside
    dsimp only
    rw [if_pos hhigh]
    exact ⟨rfl, rfl⟩
  · intro te rr bp st row e sl tp hact hne hlow
    unfold bstep
    dsimp only
    rw [hact]
    dsimp only
    rw [if_neg hne]
    rw [if_pos hlow]
    exact ⟨rfl, rfl⟩
  · intro te rr bp st row e sl tp hact hne hhigh
    unfold bstep
    dsimp only
    rw [hact]
    dsimp only
    rw [if_neg hne]
    rw [if_pos hhigh]
    exact ⟨rfl, rfl⟩

set_option maxRecDepth 100000 in
theorem C3_amended_witness :
    ((process_strategy sLongBoth).2 = some (LiveSignal.exitSig SL_HIT 95)
      ∧ (process_strategy sLongBoth).1.active_position = none)
    ∧ ((process_strategy sShortBoth).2 = some (LiveSignal.exitSig SL_HIT 115)
      ∧ (process_strategy sShortBoth).1.active_position = none)
    ∧ ((bstep 1525 ((8 : Frac) / 5) ((2 : Frac) / 25) c3st c3rowMid).trades
        = [⟨c3entryRow.ts, c3rowMid.ts, c3entryRow.close, 95, Side.LONG, SL_Hit⟩]
      ∧ (bstep 1525 ((8 : Frac) / 5) ((2 : Frac) / 25) c3st c3rowMid).active = none)
    ∧ ((bstep 1525 ((8 : Frac) / 5) ((2 : Frac) / 25) c3stS c3rowMid).trades
        = [⟨c3entryRow.ts, c3rowMid.ts, c3entryRow.close, 115, Side.SHORT, SL_Hit⟩]
      ∧ (bstep 1525 ((8 : Frac) / 5) ((2 : Frac) / 25) c3stS c3rowMid).active = none) :=
  ⟨C3_amended.1 sLongBoth ⟨Side.LONG, 105, 95, 110⟩ (by decide) rfl rfl (by decide),
   C3_amended.2.1 sShortBoth ⟨Side.SHORT, 105, 115, 96⟩ (by decide) rfl rfl (by decide),
   C3_amended.2.2.1 1525 ((8 : Frac) / 5) ((2 : Frac) / 25) c3st c3rowMid c3entryRow
     95 110 rfl (by decide) (by decide),
   C3_amended.2.2.2 1525 ((8 : Frac) / 5) ((2 : Frac) / 25) c3stS c3rowMid c3entryRow
     115 96 rfl (by decide) (by decide)⟩

/-- Claim C8: in the batch driver a candle whose `curTime` equals
`trade_end` while a position is open exits immediately at that candle's
close with reason `Forced Square-Off`, regardless of the stored stop/target,
and the state becomes flat; the live engine never emits any forced exit —
every exit reason it can produce is `SL HIT` or `TP HIT`. -/
theorem C8_forced_square_off :
    (∀ (te : ℕ) (rr bp : Frac) (st : BState) (row e : BRow) (sl tp : Frac)
        (side : Side), st.active = some (e, sl, tp, side) → row.curTime = te →
          (bstep te rr bp st row).trades
            = st.trades ++ [⟨e.ts, row.ts, e.close, row.close, side, FORCED_SQUARE_OFF⟩]
          ∧ (bstep te rr bp st row).active = none)
    ∧ (∀ (s : LiveState) (reason : String) (price : Frac),
        (process_strategy s).2 = some (LiveSignal.exitSig reason price) →
          reason = SL_HIT ∨ reason = TP_HIT) := by
  constructor
  · intro te rr bp st row e sl tp side hact hct
    unfold bstep
    dsimp only
    rw [hact]
    dsimp only
    rw [if_pos hct]
    exact ⟨rfl, rfl⟩
  · intro s reason price h
    unfold process_strategy at h
    by_cases hl : s.df.length < 210
    · rw [if_pos hl] at h
      exact absurd h (by simp)
    · rw [if_neg hl] at h
      exact core_exit_reason s.df s.today_date s.pdh s.pdl s.active_position
        reason price h

set_option maxRecDepth 100000 in
theorem C8_forced_square_off_witness :
    ((bstep 1525 ((8 : Frac) / 5) ((2 : Frac) / 25) c3st c3row).trades
        = [⟨c3entryRow.ts, c3row.ts, c3entryRow.close, c3row.close, Side.LONG,
            FORCED_SQUARE_OFF⟩]
      ∧ (bstep 1525 ((8 : Frac) / 5) ((2 : Frac) / 25) c3st c3row).active = none)
    ∧ (SL_HIT = SL_HIT ∨ SL_HIT = TP_HIT) :=
  ⟨C8_forced_square_off.1 1525 ((8 : Frac) / 5) ((2 : Frac) / 25) c3st c3row
      c3entryRow 95 110 Side.LONG rfl rfl,
   C8_forced_square_off.2 sLongBoth SL_HIT 95 (by decide)⟩

/-- Claim C9: a symbol holds at most one position — on any live update with
an open position the engine either keeps exactly that position or goes flat,
and never emits an entry signal; one batch-loop iteration with an open
position likewise either keeps it or goes flat, never replacing it. -/
theorem C9_single_position :
    (∀ (s : LiveState) (p : Position), s.active_position = some p →
        ((process_strategy s).1.active_position = none
          ∨ (process_strategy s).1.active_position = some p)
        ∧ isEntrySig (process_strategy s).2 = false)
    ∧ (∀ (te : ℕ) (rr bp : Frac) (st : BState) (row : BRow)
        (a : BRow × Frac × Frac × Side), st.active = some a →
          ((bstep te rr bp st row).active = none
            ∨ (bstep te rr bp st row).active = some a)) := by
  constructor
  · intro s p hpos
    unfold process_strategy
    by_cases hl : s.df.length < 210
    · rw [if_pos hl]
      exact ⟨Or.inr hpos, rfl⟩
    · rw [if_neg hl]
      dsimp only
      rw [hpos]
      exact core_pos_cases s.df s.today_date s.pdh s.pdl p
  · intro te rr bp st row a hact
    unfold bstep
    dsimp only
    rw [hact]
    rcases a with ⟨e, sl, tp, side⟩
    dsimp only
    cases side <;> repeat' split
    all_goals simp [hact]

set_option maxRecDepth 100000 in
theorem C9_single_position_witness :
    (((process_strategy sLongOpen).1.active_position = none
        ∨ (process_strategy sLongOpen).1.active_position
          = some ⟨Side.LONG, 100, 90, 200⟩)
      ∧ isEntrySig (process_strategy sLongOpen).2 = false)
    ∧ ((bstep 1525 ((8 : Frac) / 5) ((2 : Frac) / 25) c9st c9row).active = none
        ∨ (bstep 1525 ((8 : Frac) / 5) ((2 : Frac) / 25) c9st c9row).active
          = some (c3entryRow, 90, 200, Side.LONG)) :=
  ⟨C9_single_position.1 sLongOpen ⟨Side.LONG, 100, 90, 200⟩ rfl,
   C9_single_position.2 1525 ((8 : Frac) / 5) ((2 : Frac) / 25) c9st c9row
     (c3entryRow, 90, 200, Side.LONG) rfl⟩

/-- State with 210 candles all dated 20001 but `today_date = 20000`: the next
update crosses a date boundary, and no retained candle has an earlier date,
so `pdh`/`pdl` keep their old values 111 / 88. -/
def c5stateChange : LiveState :=
  ⟨dfWide, true, true, none, some 111, some 88, some 20000, none⟩

/-- Claim C5 (amended): in the live engine, on every processed update
(at least 210 candles) exactly when the latest candle's date differs from
`today_date`, both daily-taken flags are cleared, `today_date` is set to the
new date, and `previous_day_high`/`low` are recomputed as the maximum high /
minimum low over all retained candles whose date differs from the new date
(equivalently, under in-order ingestion, all candles strictly before it),
keeping their previous values — not null — when no such candle exists;
when the date is unchanged all five fields are untouched.  The batch driver
does not satisfy the claim: its per-row `PDH`/`PDL` come from the
immediately preceding calendar day only (see the counterexample). -/
theorem C5_amended :
    (∀ s : LiveState, ¬ s.df.length < 210 →
      s.today_date ≠ some (dateOf (lastRow s.df)) →
        (process_strategy s).1.today_date = some (dateOf (lastRow s.df))
        ∧ (process_strategy s).1.long_taken_today = false
        ∧ (process_strategy s).1.short_taken_today = false
        ∧ (process_strategy s).1.pdh
            = (match listMaxF ((s.df.filter fun c =>
                  decide (dateOf c ≠ dateOf (lastRow s.df))).map Candle.high) with
               | some v => some v
               | none => s.pdh)
        ∧ (process_strategy s).1.pdl
            = (match listMinF ((s.df.filter fun c =>
                  decide (dateOf c ≠ dateOf (lastRow s.df))).map Candle.low) with
               | some v => some v
               | none => s.pdl))
    ∧ (∀ s : LiveState, ¬ s.df.length < 210 →
      s.today_date = some (dateOf (lastRow s.df)) →
        (process_strategy s).1.today_date = s.today_date
        ∧ (process_strategy s).1.long_taken_today = s.long_taken_today
        ∧ (process_strategy s).1.short_taken_today = s.short_taken_today
        ∧ (process_strategy s).1.pdh = s.pdh
        ∧ (process_strategy s).1.pdl = s.pdl) := by
  constructor
  · intro s hlen hch
    have hd : dateChangedB s.df s.today_date = true := decide_eq_true hch
    unfold process_strategy
    rw [if_neg hlen]
    dsimp only
    obtain ⟨hc, ht, hp, hq⟩ :=
      processCore_session s.df s.today_date s.pdh s.pdl s.active_position
    refine ⟨?_, ?_, ?_, ?_, ?_⟩
    · rw [ht, hd]
      simp
    · rw [hc, hd]
      simp
    · rw [hc, hd]
      simp
    · rw [hp]
      unfold pdhAfter
      rw [hd]
      simp
    · rw [hq]
      unfold pdlAfter
      rw [hd]
      simp
  · intro s hlen hch
    have hd : dateChangedB s.df s.today_date = false :=
      decide_eq_false (fun hne => hne hch)
    unfold process_strategy
    rw [if_neg hlen]
    dsimp only
    obtain ⟨hc, ht, hp, hq⟩ :=
      processCore_session s.df s.today_date s.pdh s.pdl s.active_position
    refine ⟨?_, ?_, ?_, ?_, ?_⟩
    · rw [ht, hd]
      simp
    · rw [hc, hd]
      simp
    · rw [hc, hd]
      simp
    · rw [hp]
      unfold pdhAfter
      rw [hd]
      simp
    · rw [hq]
      unfold pdlAfter
      rw [hd]
      simp

set_option maxRecDepth 100000 in
theorem C5_amended_witness :
    ((process_strategy c5stateChange).1.today_date = some 20001
      ∧ (process_strategy c5stateChange).1.long_taken_today = false
      ∧ (process_strategy c5stateChange).1.short_taken_today = false
      ∧ (process_strategy c5stateChange).1.pdh = some 111
      ∧ (process_strategy c5stateChange).1.pdl = some 88)
    ∧ ((process_strategy sLongOpen).1.pdh = some 100
      ∧ (process_strategy sLongOpen).1.long_taken_today = false) := by
  constructor
  · have h := C5_amended.1 c5stateChange (by decide) (by decide)
    refine ⟨h.1, h.2.1, h.2.2.1, ?_, ?_⟩
    · rw [h.2.2.2.1]
      decide
    · rw [h.2.2.2.2]
      decide
  · have h := C5_amended.2 sLongOpen (by decide) (by decide)
    exact ⟨h.2.2.2.1, h.2.1⟩

/-- The state `s` with the two daily-taken flags overwritten. -/
def setFlags (s : LiveState) (b1 b2 : Bool) : LiveState :=
  { s with long_taken_today := b1, short_taken_today := b2 }

set_option maxRecDepth 100000 in
/-- Claim C2 (refuted for the live engine): the live engine neither reads
nor sets the daily-taken flags.  Concretely, pre-seeded with 209 warm-up
candles and fed three same-day ticks, it emits BUY, stop-loss EXIT, then a
second BUY on day 20001 — two LONG entries on one calendar day.  In general
its emitted signal and resulting position are independent of both flags, and
the flags only ever carry over or get cleared on a date change (an entry
never sets them). -/
theorem C2_live_daily_flags_unused :
    ((runLive c2s0 c2ticks).2.map isBuySig = [true, false, true]
      ∧ (runLive c2s0 c2ticks).2.map isExitSig = [false, true, false]
      ∧ ((runLive c2s0 c2ticks).1.df.drop 209).map dateOf = [20001, 20001, 20001])
    ∧ (∀ (s : LiveState) (b1 b2 : Bool),
        (process_strategy (setFlags s b1 b2)).2 = (process_strategy s).2
        ∧ (process_strategy (setFlags s b1 b2)).1.active_position
          = (process_strategy s).1.active_position
        ∧ (process_strategy s).1.long_taken_today
          = (s.long_taken_today
              && !(!decide (s.df.length < 210) && dateChangedB s.df s.today_date))
        ∧ (process_strategy s).1.short_taken_today
          = (s.short_taken_today
              && !(!decide (s.df.length < 210) && dateChangedB s.df s.today_date))) := by
  constructor
  · decide
  · intro s b1 b2
    unfold process_strategy setFlags
    by_cases h : s.df.length < 210
    · have h' : (setFlags s b1 b2).df.length < 210 := h
      unfold setFlags at h'
      rw [if_pos h, if_pos h']
      refine ⟨rfl, rfl, ?_, ?_⟩ <;> simp [h]
    · have h' : ¬ (setFlags s b1 b2).df.length < 210 := h
      unfold setFlags at h'
      rw [if_neg h, if_neg h']
      dsimp only
      obtain ⟨hc, -, -, -⟩ :=
        processCore_session s.df s.today_date s.pdh s.pdl s.active_position
      refine ⟨rfl, rfl, ?_, ?_⟩
      · rw [hc]
        cases hdc : dateChangedB s.df s.today_date <;> simp [h, hdc]
      · rw [hc]
        cases hdc : dateChangedB s.df s.today_date <;> simp [h, hdc]

theorem rollMean_getD_none (nw i : ℕ) (xs : List Frac) (h : xs.length < nw) :
    (rollMean nw xs).getD i none = none := by
  unfold rollMean
  rcases Nat.lt_or_ge i xs.length with hi | hi
  · rw [List.getD_eq_getElem _ _ (by simpa using hi)]
    rw [List.getElem_map]
    rw [List.getElem_range]
    rw [if_neg (by omega : ¬ nw ≤ i + 1)]
  · rw [List.getD_eq_default]
    simpa using hi

theorem volMALast_none (df : List Candle) (h : df.length < 20) :
    volMALast df = none := by
  unfold volMALast
  exact rollMean_getD_none 20 (df.length - 1) (df.map Candle.volume)
    (by simpa using h)

theorem vol_okB_false (df : List Candle) (h : df.length < 20) :
    vol_okB df = false := by
  unfold vol_okB
  rw [volMALast_none df h]

theorem enrich_vol_ok_false (df : List Candle) (h : df.length < 20) :
    ∀ r ∈ enrich df 200 20 ((3 : Frac) / 2) ((3 : Frac) / 20) true 915 1525,
      r.vol_ok = false := by
  intro r hr
  unfold enrich at hr
  rw [List.mem_map] at hr
  obtain ⟨i, hi, rfl⟩ := hr
  rw [List.mem_range] at hi
  unfold enrichRow
  dsimp only
  rw [rollMean_getD_none 20 i (df.map Candle.volume) (by simpa using h)]

theorem bstep_no_vol (te : ℕ) (rr bp : Frac) (st : BState) (row : BRow)
    (h1 : st.active = none) (h2 : row.vol_ok = false) :
    (bstep te rr bp st row).trades = st.trades
    ∧ (bstep te rr bp st row).active = none := by
  unfold bstep
  dsimp only
  rw [h1]
  dsimp only
  rw [h2]
  simp

theorem bfold_no_vol (te : ℕ) (rr bp : Frac) (rows : List BRow)
    (h : ∀ r ∈ rows, r.vol_ok = false) :
    ∀ st : BState, st.active = none →
      (rows.foldl (bstep te rr bp) st).trades = st.trades
      ∧ (rows.foldl (bstep te rr bp) st).active = none := by
  induction rows with
  | nil => exact fun st h1 => ⟨rfl, h1⟩
  | cons r rs ih =>
      intro st h1
      have hr := h r (List.mem_cons_self r rs)
      have hstep := bstep_no_vol te rr bp st r h1 hr
      have hrec := ih (fun x hx => h x (List.mem_cons_of_mem r hx))
        (bstep te rr bp st r) hstep.2
      exact ⟨hrec.1.trans hstep.1, hrec.2⟩

/-- Claim C7: on a candle series with fewer than 20 candles the rolling
volume average is undefined and volume confirmation is false everywhere —
never true, never as if the average were zero — so the batch driver takes
no entry and records no trade on such a series, and the live engine
(likewise gated at 210 candles) returns `None` without touching its
state. -/
theorem C7_short_series_no_entry (df : List Candle) (h : df.length < 20) :
    volMALast df = none
    ∧ vol_okB df = false
    ∧ (∀ r ∈ enrich df 200 20 ((3 : Frac) / 2) ((3 : Frac) / 20) true 915 1525,
        r.vol_ok = false)
    ∧ compute_intraday_strategy_default df = []
    ∧ (∀ s : LiveState, s.df = df → process_strategy s = (s, none)) := by
  refine ⟨volMALast_none df h, vol_okB_false df h, enrich_vol_ok_false df h,
    ?_, ?_⟩
  · unfold compute_intraday_strategy_default compute_intraday_strategy
    exact (bfold_no_vol 1525 ((8 : Frac) / 5) ((2 : Frac) / 25) _
      (enrich_vol_ok_false df h) binit rfl).1
  · intro s hs
    unfold process_strategy
    rw [if_pos (by rw [hs]; omega)]

theorem C7_short_series_no_entry_witness :
    c5df.length < 20
    ∧ volMALast c5df = none
    ∧ vol_okB c5df = false
    ∧ compute_intraday_strategy_default c5df = []
    ∧ process_strategy ⟨c5df, false, false, none, none, none, none, none⟩
      = (⟨c5df, false, false, none, none, none, none, none⟩, none) := by
  have hthm := C7_short_series_no_entry c5df (by decide)
  exact ⟨by decide, hthm.1, hthm.2.1, hthm.2.2.2.1,
    hthm.2.2.2.2 ⟨c5df, false, false, none, none, none, none, none⟩ rfl⟩
